import Mathlib

/-!
Verification of the path-sandboxing and edit engine of `src/filesystem/server.py`
(an MCP filesystem server).

Shallow embedding conventions:
* Paths are `String`s; all string manipulation goes through `·.data : List Char`
  with structural recursion so that every definition evaluates by `decide`/`rfl`.
* The POSIX platform is assumed (`os.sep = "/"`), matching the string literals
  the server builds its virtual aliases from.
* `os.path.normpath`, `os.path.join`, `os.path.abspath`, `os.path.expanduser`
  and `os.path.dirname` are transcribed from CPython `posixpath`.
* The filesystem itself (symlink resolution, existence, file contents) is a
  value of the `FS` structure; `os.path.realpath` is the `FS.realpath` field.
  CPython `os.path.realpath` is called without `strict=True`, and in that
  default mode it "resolves the path as far as possible and appends any
  remainder without checking whether it exists" — it never raises
  `FileNotFoundError`.  `realpathExc` records this: it always returns `some`.
-/

namespace Server

/-- `s.startswith p` on Python strings. -/
def strStartsWith (s p : String) : Bool := p.data.isPrefixOf s.data

/-- `s[n:]` on Python strings (drop the first `n` characters). -/
def strDrop (s : String) (n : Nat) : String := String.mk (s.data.drop n)

/-- `s.lstrip("/")`. -/
def lstripSlash (s : String) : String := String.mk (s.data.dropWhile (fun c => c = '/'))

/-- `s.endswith("/")`. -/
def strEndsWithSlash (a : String) : Bool := a.data.getLast? = some '/'

/-- `path.split("/")` (CPython `str.split` with an explicit separator). -/
def splitOnSlash : List Char → List (List Char)
  | [] => [[]]
  | c :: cs =>
    match splitOnSlash cs with
    | [] => [[]]
    | r :: rs => if c = '/' then [] :: r :: rs else (c :: r) :: rs

/-- Join character-list components with `'/'` (`"/".join(comps)`). -/
def joinSlash (comps : List (List Char)) : List Char :=
  (comps.intersperse ['/']).flatten

/-- CPython `posixpath.normpath`: collapse separators, drop `.` segments,
resolve `..` lexically, preserving the exactly-two-leading-slashes quirk. -/
def normpath (path : String) : String :=
  if path = "" then "."
  else
    let initialSlashes : Nat :=
      if strStartsWith path "/" then
        if strStartsWith path "//" && !(strStartsWith path "///") then 2 else 1
      else 0
    let newComps := (splitOnSlash path.data).foldl (fun acc comp =>
      if comp = [] ∨ comp = ['.'] then acc
      else if comp ≠ ['.', '.'] ∨ (initialSlashes = 0 ∧ acc = []) ∨
          acc.getLast? = some ['.', '.'] then acc ++ [comp]
      else if acc ≠ [] then acc.dropLast
      else acc) []
    let result := List.replicate initialSlashes '/' ++ joinSlash newComps
    if result = [] then "." else String.mk result

/-- CPython `posixpath.join` restricted to two arguments (the only arity the
server uses). -/
def pyJoin (a b : String) : String :=
  if strStartsWith b "/" then b
  else if a = "" ∨ strEndsWithSlash a then a ++ b
  else a ++ "/" ++ b

/-- CPython `posixpath.expanduser`, with the home directory supplied
explicitly.  The `~user` form is modelled as returning the path unchanged
(CPython behaviour when the named user is unknown). -/
def expanduser (home : String) (p : String) : String :=
  if ¬ strStartsWith p "~" then p
  else if p = "~" then home
  else if strStartsWith p "~/" then home ++ strDrop p 1
  else p

/-- CPython `posixpath.abspath`, with the current working directory supplied
explicitly: join onto the CWD when relative, then `normpath`. -/
def abspath (cwd : String) (p : String) : String :=
  if strStartsWith p "/" then normpath p else normpath (pyJoin cwd p)

/-- CPython `posixpath.dirname`. -/
def dirname (p : String) : String :=
  let cs := p.data
  match cs.reverse.findIdx? (fun c => c = '/') with
  | none => ""
  | some j =>
    let head := cs.take (cs.length - j)
    if head.all (fun c => c = '/') then String.mk head
    else String.mk ((head.reverse.dropWhile (fun c => c = '/')).reverse)

/-- The module-level configuration of the server: `_allowed_dirs` together
with the ambient process state (`os.getcwd()`, `$HOME`) that
`os.path.abspath` / `os.path.expanduser` consult. -/
structure Config where
  allowedDirs : List String
  cwd : String
  home : String

/-- An abstract snapshot of the filesystem: symlink canonicalization
(`os.path.realpath`), existence (`os.path.exists`) and regular-file contents
keyed by real path. -/
structure FS where
  realpath : String → String
  pathExists : String → Bool
  files : List (String × String)

/-- `set_allowed_dirs` (server.py:20-27): each configured directory is passed
through `os.path.abspath(os.path.expanduser(d))`. -/
def set_allowed_dirs (cwd home : String) (dirs : List String) : Config :=
  { allowedDirs := dirs.map (fun d => abspath cwd (expanduser home d)),
    cwd := cwd, home := home }

/-- `_virtual_to_real` (server.py:26): alias `/data/<chr(97+i)>` for the
`i`-th allowed directory, in configuration order. -/
def virtualToReal (cfg : Config) : List (String × String) :=
  cfg.allowedDirs.enum.map (fun id => ("/data/" ++ String.mk [Char.ofNat (97 + id.1)], id.2))

/-- `_real_to_virtual` (server.py:27): the inverted mapping. -/
def realToVirtual (cfg : Config) : List (String × String) :=
  (virtualToReal cfg).map (fun vr => (vr.2, vr.1))

/-- The virtual-alias test of server.py:34:
`requested_path.startswith(virtual_dir + "/") or requested_path == virtual_dir`. -/
def virtualMatch (requestedPath : String) (vr : String × String) : Bool :=
  strStartsWith requestedPath (vr.1 ++ "/") || requestedPath == vr.1

/-- Lines 33-41 of `validate_path`: substitute the first matching virtual
alias, else fall back to `os.path.expanduser(requested_path)`
("treat as a relative path under first allowed dir (for compatibility)"). -/
def expandRequested (cfg : Config) (requestedPath : String) : String :=
  match (virtualToReal cfg).find? (virtualMatch requestedPath) with
  | some vr =>
    let relativePath := lstripSlash (strDrop requestedPath vr.1.data.length)
    if relativePath = "" then vr.2 else pyJoin vr.2 relativePath
  | none => expanduser cfg.home requestedPath

/-- Lines 43-44 of `validate_path`:
`normalized_path = os.path.normpath(os.path.abspath(expanded_path))`. -/
def candidatePath (cfg : Config) (requestedPath : String) : String :=
  normpath (abspath cfg.cwd (expandRequested cfg requestedPath))

/-- The boundary check of server.py:48/56:
`real_path.startswith(allowed_dir + os.sep) or real_path == allowed_dir`. -/
def withinAllowed (allowedDirs : List String) (p : String) : Bool :=
  allowedDirs.any (fun d => strStartsWith p (d ++ "/") || p == d)

/-- The exceptions `validate_path` raises, with the data interpolated into
each message.  `accessDenied` is the `PermissionError` of line 50,
`parentNotFound` the `FileNotFoundError` of line 55, `accessDeniedParent`
the `PermissionError` of line 58. -/
inductive VErr where
  | accessDenied (realPath : String)
  | parentNotFound (realParent : String)
  | accessDeniedParent (realParent : String)
deriving DecidableEq

/-- The `str(e)` rendering of each exception, from the f-strings at
server.py:50/55/58. -/
def VErr.message : VErr → String
  | .accessDenied rp => "Access denied: " ++ rp ++ " not in allowed directories"
  | .parentNotFound rp => "Parent directory does not exist: " ++ rp
  | .accessDeniedParent rp =>
      "Access denied: parent directory " ++ rp ++ " not in allowed directories"

/-- `os.path.realpath(normalized_path)` as called inside the `try` of
server.py:46-47.  CPython `os.path.realpath` without `strict=True` never
raises `FileNotFoundError` (the path is resolved as far as possible and the
remainder appended without an existence check), so the result is always
`some`; the `except FileNotFoundError` handler is modelled by the `none`
branch of the caller's match, which is consequently unreachable. -/
def realpathExc (fs : FS) (p : String) : Option String := some (fs.realpath p)

/-- `validate_path` (server.py:30-58). -/
def validate_path (cfg : Config) (fs : FS) (requestedPath : String) : Except VErr String :=
  let normalizedPath := candidatePath cfg requestedPath
  match realpathExc fs normalizedPath with
  | some realPath =>
    if withinAllowed cfg.allowedDirs realPath then .ok realPath
    else .error (VErr.accessDenied realPath)
  | none =>
    let parentDir := dirname normalizedPath
    let realParent := fs.realpath parentDir
    if ¬ fs.pathExists realParent then .error (VErr.parentNotFound realParent)
    else if withinAllowed cfg.allowedDirs realParent then .ok normalizedPath
    else .error (VErr.accessDeniedParent realParent)

/-- `convert_to_virtual_path` (server.py:61-67). -/
def convert_to_virtual_path (cfg : Config) (realPath : String) : String :=
  match (realToVirtual cfg).find? (fun rv =>
      strStartsWith realPath (rv.1 ++ "/") || realPath == rv.1) with
  | some rv =>
    let relativePath := lstripSlash (strDrop realPath rv.1.data.length)
    if relativePath = "" then rv.2 else pyJoin rv.2 relativePath
  | none => realPath

/-! ## The edit engine (`apply_file_edits_sync`, server.py:84-96) -/

/-- The scanning loop of CPython `str.replace` for a non-empty pattern:
walk the haystack left to right; at each position, if the pattern starts
here, emit the replacement and skip past the match, otherwise keep the
character.  `fuel` is an upper bound on the haystack length that makes the
recursion structural (so that the kernel can evaluate it); every caller
passes `fuel ≥ s.length`, in which case the `0, s` fallback is unreachable. -/
def replaceGo (old new : List Char) : Nat → List Char → List Char
  | _, [] => []
  | 0, s => s
  | Nat.succ n, c :: cs =>
    if old.isPrefixOf (c :: cs)
    then new ++ replaceGo old new n (cs.drop (old.length - 1))
    else c :: replaceGo old new n cs

/-- CPython `str.replace(old, new)`: replace every non-overlapping occurrence
of `old`, scanning left to right in a single pass.  An empty pattern inserts
`new` at every position (`"ab".replace("", "-") == "-a-b-"`). -/
def pyReplace (s old new : List Char) : List Char :=
  if old = [] then new ++ s.flatMap (fun c => c :: new)
  else replaceGo old new s.length s

/-- `str.replace` on `String`s. -/
def pyReplaceS (s old new : String) : String :=
  String.mk (pyReplace s.data old.data new.data)

/-- The `EditOperation` pydantic model (server.py:177-179): one
`oldText → newText` replacement. -/
structure EditOperation where
  oldText : String
  newText : String

/-- The edit loop of server.py:88-90:
`for edit in edits: new_content = new_content.replace(...)`. -/
def applyEdits (edits : List EditOperation) (content : String) : String :=
  edits.foldl (fun acc e => pyReplaceS acc e.oldText e.newText) content

/-- `open(path, "w").write(content)` on the modelled filesystem. -/
def writeFile (fs : FS) (path content : String) : FS :=
  { fs with files := (path, content) :: fs.files.filter (fun kv => !(kv.1 == path)) }

/-- `apply_file_edits_sync` (server.py:84-96).  `udiff` stands for the pure
function `difflib.unified_diff(content.splitlines(True),
new_content.splitlines(True), fromfile=path, tofile=path)` joined to a
string; no claim depends on the diff text itself, so the theorems quantify
over it.  `none` models the `FileNotFoundError` of the initial `open`. -/
def apply_file_edits_sync (udiff : String → String → String → String)
    (fs : FS) (path : String) (edits : List EditOperation) (dryRun : Bool) :
    Option (String × FS) :=
  match fs.files.lookup path with
  | none => none
  | some content =>
    let newContent := applyEdits edits content
    let diffStr := udiff content newContent path
    some (diffStr, if dryRun then fs else writeFile fs path newContent)

/-! ## Tool handlers (`handle_call_tool`, server.py:285-393) -/

/-- The `read_file` branch (server.py:289-300, whole-file mode) together with
the blanket `except` of server.py:392-393, which renders any exception as
`f"Error: {str(e)}"`.  The quotes CPython puts around the path in a
`FileNotFoundError` message are elided. -/
def read_file_tool (cfg : Config) (fs : FS) (path : String) : String :=
  match validate_path cfg fs path with
  | .error e => "Error: " ++ e.message
  | .ok validPath =>
    match fs.files.lookup validPath with
    | some content => content
    | none => "Error: [Errno 2] No such file or directory: " ++ validPath

/-- POSIX `os.rename` on regular files: raises (`none`) when the source does
not exist; when the destination already exists it is replaced silently. -/
def osRename (fs : FS) (src dst : String) : Option FS :=
  match fs.files.lookup src with
  | none => none
  | some c => some { fs with files :=
      (dst, c) :: fs.files.filter (fun kv => !(kv.1 == src) && !(kv.1 == dst)) }

/-- The `move_file` branch (server.py:355-362) with the blanket `except`:
validate both paths, call `os.rename`, report the virtual paths on success. -/
def move_file_tool (cfg : Config) (fs : FS) (source destination : String) : FS × String :=
  match validate_path cfg fs source with
  | .error e => (fs, "Error: " ++ e.message)
  | .ok validSource =>
    match validate_path cfg fs destination with
    | .error e => (fs, "Error: " ++ e.message)
    | .ok validDestination =>
      match osRename fs validSource validDestination with
      | none => (fs, "Error: [Errno 2] No such file or directory: " ++ validSource)
      | some fs2 =>
        (fs2, "Successfully moved " ++ convert_to_virtual_path cfg validSource ++
          " to " ++ convert_to_virtual_path cfg validDestination)

/-! ## Concrete configurations and filesystems used by witnesses and
counterexamples -/

/-- A server started as `filesystem /allowed` with CWD `/` and HOME `/root`. -/
def cfgA : Config := set_allowed_dirs "/" "/root" ["/allowed"]

/-- A symlink-free filesystem where `/allowed` and `/allowed/f` exist and
`/allowed/f` holds `"hello"`. -/
def fsA : FS :=
  { realpath := fun p => p,
    pathExists := fun p => p == "/allowed" || p == "/allowed/f",
    files := [("/allowed/f", "hello")] }

/-- A filesystem where everything exists and `/allowed/link` is a symlink to
`/outside/secret`, a path outside every allowed directory. -/
def fsLink : FS :=
  { realpath := fun p => if p = "/allowed/link" then "/outside/secret" else p,
    pathExists := fun _ => true, files := [] }

/-- A symlink-free filesystem where every path exists. -/
def fsPlain : FS :=
  { realpath := fun p => p, pathExists := fun _ => true, files := [] }

/-- A symlink-free filesystem where only `/allowed` itself exists (in
particular `/allowed/missing` does not). -/
def fsMissingParent : FS :=
  { realpath := fun p => p, pathExists := fun p => p == "/allowed", files := [] }

/-- A symlink-free filesystem holding two regular files `/allowed/s` and
`/allowed/d`. -/
def fsMove : FS :=
  { realpath := fun p => p, pathExists := fun _ => true,
    files := [("/allowed/s", "S"), ("/allowed/d", "D")] }

/-! ## Helper lemmas -/

theorem strStartsWith_iff (s p : String) :
    strStartsWith s p = true ↔ ∃ r : String, s = p ++ r := by
  unfold strStartsWith
  rw [ List.isPrefixOf_iff_prefix]
  constructor
  · rintro ⟨t, ht⟩
    exact ⟨String.mk t, String.ext ht.symm⟩
  · rintro ⟨r, rfl⟩
    exact ⟨r.data, rfl⟩

theorem withinAllowed_eq_true_iff (dirs : List String) (p : String) :
    withinAllowed dirs p = true ↔
      ∃ d ∈ dirs, p = d ∨ ∃ r : String, p = d ++ "/" ++ r := by
  unfold withinAllowed
  rw [List.any_eq_true]
  constructor
  · rintro ⟨d, hd, hm⟩
    rw [Bool.or_eq_true] at hm
    refine ⟨d, hd, ?_⟩
    rcases hm with h | h
    · rcases (strStartsWith_iff p (d ++ "/")).mp h with ⟨r, hr⟩
      exact Or.inr ⟨r, hr⟩
    · exact Or.inl (eq_of_beq h)
  · rintro ⟨d, hd, h⟩
    refine ⟨d, hd, Bool.or_eq_true _ _ |>.mpr ?_⟩
    rcases h with rfl | ⟨r, rfl⟩
    · exact Or.inr (by simp)
    · exact Or.inl ((strStartsWith_iff _ _).mpr ⟨r, rfl⟩)

/-- Because CPython `os.path.realpath` never raises `FileNotFoundError` in
its default non-strict mode, `validate_path` always takes the `try` branch:
its behaviour is fully determined by canonicalizing the normalized candidate
and running the boundary check on the result. -/
theorem validate_path_eq (cfg : Config) (fs : FS) (p : String) :
    validate_path cfg fs p =
      (if withinAllowed cfg.allowedDirs (fs.realpath (candidatePath cfg p))
       then .ok (fs.realpath (candidatePath cfg p))
       else .error (VErr.accessDenied (fs.realpath (candidatePath cfg p)))) := rfl

theorem validate_path_denied_of_outside (cfg : Config) (fs : FS) (p : String)
    (h : withinAllowed cfg.allowedDirs (fs.realpath (candidatePath cfg p)) = false) :
    validate_path cfg fs p =
      .error (VErr.accessDenied (fs.realpath (candidatePath cfg p))) := by
  rw [validate_path_eq, if_neg]
  simp [h]

theorem replaceGo_nil (old new : List Char) (n : Nat) :
    replaceGo old new n [] = [] := by
  cases n <;> rfl

theorem replaceGo_cons (old new : List Char) (n : Nat) (c : Char) (cs : List Char) :
    replaceGo old new (n + 1) (c :: cs) =
      (if old.isPrefixOf (c :: cs)
       then new ++ replaceGo old new n (cs.drop (old.length - 1))
       else c :: replaceGo old new n cs) := rfl

theorem replaceGo_fuel (old new : List Char) :
    ∀ (n m : Nat) (s : List Char), s.length ≤ n → s.length ≤ m →
      replaceGo old new n s = replaceGo old new m s := by
  intro n
  induction n with
  | zero =>
    intro m s hs _
    have hnil : s = [] := List.eq_nil_of_length_eq_zero (Nat.le_zero.mp hs)
    subst hnil
    rw [replaceGo_nil, replaceGo_nil]
  | succ n ih =>
    intro m s hs hm
    cases s with
    | nil => rw [replaceGo_nil, replaceGo_nil]
    | cons c cs =>
      cases m with
      | zero => simp at hm
      | succ m =>
        rw [replaceGo_cons, replaceGo_cons]
        cases hb : old.isPrefixOf (c :: cs) with
        | true =>
          rw [if_pos rfl, if_pos rfl]
          have hlen : (cs.drop (old.length - 1)).length ≤ cs.length := by
            rw [List.length_drop]; omega
          have h1 : (cs.drop (old.length - 1)).length ≤ n := by
            simp only [List.length_cons] at hs; omega
          have h2 : (cs.drop (old.length - 1)).length ≤ m := by
            simp only [List.length_cons] at hm; omega
          rw [ih m _ h1 h2]
        | false =>
          rw [if_neg (by simp [hb]), if_neg (by simp [hb])]
          have h1 : cs.length ≤ n := by simp only [List.length_cons] at hs; omega
          have h2 : cs.length ≤ m := by simp only [List.length_cons] at hm; omega
          rw [ih m cs h1 h2]

theorem replaceGo_of_not_occurring (old new : List Char) :
    ∀ (n : Nat) (s : List Char), s.length ≤ n → ¬ old <:+: s →
      replaceGo old new n s = s := by
  intro n
  induction n with
  | zero =>
    intro s hs _
    have hnil : s = [] := List.eq_nil_of_length_eq_zero (Nat.le_zero.mp hs)
    subst hnil
    rw [replaceGo_nil]
  | succ n ih =>
    intro s hs hinf
    cases s with
    | nil => rw [replaceGo_nil]
    | cons c cs =>
      rw [replaceGo_cons]
      have hb : old.isPrefixOf (c :: cs) = false := by
        cases hb : old.isPrefixOf (c :: cs) with
        | true =>
          exact absurd (( List.isPrefixOf_iff_prefix).mp hb).isInfix hinf
        | false => rfl
      rw [if_neg (by simp [hb])]
      have hinf2 : ¬ old <:+: cs := fun h =>
        hinf (List.infix_cons_iff.mpr (Or.inr h))
      have h1 : cs.length ≤ n := by simp only [List.length_cons] at hs; omega
      rw [ih cs h1 hinf2]

/-- Python `content.replace(old, new)` is the identity when `old` does not
occur in `content` (the empty pattern occurs in every string, so it is
covered too). -/
theorem pyReplace_of_not_occurring (s old new : List Char) (h : ¬ old <:+: s) :
    pyReplace s old new = s := by
  unfold pyReplace
  have hne : ¬ old = [] := by
    rintro rfl
    exact h List.nil_infix
  rw [if_neg hne]
  exact replaceGo_of_not_occurring old new s.length s (le_refl _) h

/-- When the pattern starts the haystack, `str.replace` emits the
replacement and continues scanning strictly after the match. -/
theorem pyReplace_head_match (s old new : List Char) (hne : old ≠ []) :
    pyReplace (old ++ s) old new = new ++ pyReplace s old new := by
  unfold pyReplace
  rw [if_neg hne, if_neg hne]
  cases old with
  | nil => exact absurd rfl hne
  | cons o os =>
    rw [List.cons_append]
    have hlen : (o :: (os ++ s)).length = (os ++ s).length + 1 := rfl
    rw [hlen, replaceGo_cons]
    have hpre : (o :: os).isPrefixOf (o :: (os ++ s)) = true := by
      rw [ List.isPrefixOf_iff_prefix, show o :: (os ++ s) = (o :: os) ++ s from rfl]
      exact List.prefix_append (o :: os) s
    rw [if_pos hpre]
    have hdrop : (os ++ s).drop ((o :: os).length - 1) = s := by
      rw [show (o :: os).length - 1 = os.length from rfl]
      exact List.drop_left os s
    rw [hdrop]
    have : replaceGo (o :: os) new (os ++ s).length s = replaceGo (o :: os) new s.length s := by
      apply replaceGo_fuel
      · rw [List.length_append]; omega
      · exact le_refl _
    rw [this]

/-- When the pattern does not start the haystack, `str.replace` keeps the
head character and scans on. -/
theorem pyReplace_cons_no_match (c : Char) (cs old new : List Char) (hne : old ≠ [])
    (h : old.isPrefixOf (c :: cs) = false) :
    pyReplace (c :: cs) old new = c :: pyReplace cs old new := by
  unfold pyReplace
  rw [if_neg hne, if_neg hne]
  rw [show (c :: cs).length = cs.length + 1 from rfl, replaceGo_cons]
  rw [if_neg (by simp [h])]

theorem dropWhile_slash_of_head (l : List Char) (h : l.head? ≠ some '/') :
    l.dropWhile (fun c => c = '/') = l := by
  cases l with
  | nil => rfl
  | cons c cs =>
    have hc : c ≠ '/' := by
      intro hc
      exact h (by rw [List.head?_cons, hc])
    simp [List.dropWhile_cons, hc]

theorem strip_after_alias (a r : String) (h : r.data.head? ≠ some '/') :
    lstripSlash (strDrop (a ++ "/" ++ r) a.data.length) = r := by
  unfold strDrop lstripSlash
  have hdata : (a ++ "/" ++ r).data = a.data ++ ('/' :: r.data) := by
    show (a.data ++ ['/']) ++ r.data = a.data ++ ('/' :: r.data)
    rw [List.append_assoc]
    rfl
  rw [hdata, List.drop_left]
  rw [List.dropWhile_cons, if_pos (by simp)]
  rw [dropWhile_slash_of_head r.data h]

theorem startsWithSlash_false (b : String) (hb : b.data.head? ≠ some '/') :
    strStartsWith b "/" = false := by
  unfold strStartsWith
  show List.isPrefixOf ['/'] b.data = false
  cases hd : b.data with
  | nil => rfl
  | cons c cs =>
    have hc : c ≠ '/' := by
      intro hc
      exact hb (by rw [hd, List.head?_cons, hc])
    simp [List.isPrefixOf, Ne.symm hc]

theorem pyJoin_clean (a b : String) (ha0 : a ≠ "") (haslash : strEndsWithSlash a = false)
    (hb : b.data.head? ≠ some '/') : pyJoin a b = a ++ "/" ++ b := by
  unfold pyJoin
  rw [if_neg (by simp [startsWithSlash_false b hb])]
  rw [if_neg]
  rintro (h | h)
  · exact ha0 h
  · rw [haslash] at h
    cases h

theorem withinAllowed_descendant (dirs : List String) (d r : String) (hd : d ∈ dirs) :
    withinAllowed dirs (d ++ "/" ++ r) = true :=
  (withinAllowed_eq_true_iff dirs _).mpr ⟨d, hd, Or.inr ⟨r, rfl⟩⟩

theorem find_virtualToReal_mem (cfg : Config) (pred : String × String → Bool)
    (va d : String) (h : (virtualToReal cfg).find? pred = some (va, d)) :
    d ∈ cfg.allowedDirs := by
  have hmem := List.mem_of_find?_eq_some h
  unfold virtualToReal at hmem
  rw [List.mem_map] at hmem
  obtain ⟨⟨i, dir⟩, hid, heq⟩ := hmem
  have hdir : dir = d := congrArg Prod.snd heq
  subst hdir
  rw [List.mk_mem_enum_iff_getElem?] at hid
  exact List.getElem?_mem hid

/-! ## C1 -/

/-- C1: for every configured allow-list, filesystem and caller-supplied path,
whenever `validate_path` succeeds and the returned target exists, the real
path it returns is equal to some allowed directory or a segment-wise
descendant of one (`d ++ "/" ++ r`); a real path that merely shares a string
prefix with an allowed directory (such as `/allowed-other` against
`/allowed`) can never be returned, since it is neither equal to the
directory nor an extension across a `/` boundary. -/
theorem validate_path_within_allowed (cfg : Config) (fs : FS) (p rp : String)
    (hok : validate_path cfg fs p = .ok rp) (hex : fs.pathExists rp = true) :
    ∃ d ∈ cfg.allowedDirs, rp = d ∨ ∃ r : String, rp = d ++ "/" ++ r := by
  rw [validate_path_eq] at hok
  by_cases h : withinAllowed cfg.allowedDirs (fs.realpath (candidatePath cfg p)) = true
  · rw [if_pos h] at hok
    cases hok
    exact (withinAllowed_eq_true_iff _ _).mp h
  · rw [if_neg h] at hok
    cases hok

/-- Witness for C1 at a concrete configuration: `/data/a/f` resolves to
`/allowed/f`, which exists and is a segment-wise descendant of `/allowed`. -/
theorem validate_path_within_allowed_witness :
    validate_path cfgA fsA "/data/a/f" = .ok "/allowed/f" ∧
    fsA.pathExists "/allowed/f" = true ∧
    ∃ d ∈ cfgA.allowedDirs, "/allowed/f" = d ∨
      ∃ r : String, "/allowed/f" = d ++ "/" ++ r :=
  ⟨by rfl, by rfl,
    validate_path_within_allowed cfgA fsA "/data/a/f" "/allowed/f" (by rfl) (by rfl)⟩

/-! ## C2 -/

/-- C2 counterexample: the claim says a caller-supplied path that does not
begin with a recognized virtual alias must fail with `InvalidVirtualPath`.
On the code it does not fail: `/allowed/f` matches no virtual alias of the
configuration, yet `validate_path` accepts it via the legacy compatibility
fallback (server.py:39-41) and returns it. -/
theorem validate_path_fallback_counterexample :
    (virtualToReal cfgA).find? (virtualMatch "/allowed/f") = none ∧
    validate_path cfgA fsPlain "/allowed/f" = .ok "/allowed/f" :=
  ⟨by rfl, by rfl⟩

/-- C2 amended: a caller-supplied path that matches no virtual alias is NOT
rejected outright.  It is `~`-expanded, made absolute against the process
CWD, canonicalized, and then accepted exactly when its real path lies within
an allowed directory (otherwise it fails with the access-denied error); the
legacy fallback is present and there is no `InvalidVirtualPath` failure. -/
theorem validate_path_fallback_behavior (cfg : Config) (fs : FS) (p : String)
    (h : (virtualToReal cfg).find? (virtualMatch p) = none) :
    validate_path cfg fs p =
      (if withinAllowed cfg.allowedDirs
            (fs.realpath (normpath (abspath cfg.cwd (expanduser cfg.home p))))
       then .ok (fs.realpath (normpath (abspath cfg.cwd (expanduser cfg.home p))))
       else .error (VErr.accessDenied
            (fs.realpath (normpath (abspath cfg.cwd (expanduser cfg.home p)))))) := by
  rw [validate_path_eq]
  unfold candidatePath expandRequested
  rw [h]

/-- Witness for C2-amended: `/etc/passwd` matches no alias, falls through the
legacy fallback, and is rejected only by the boundary check. -/
theorem validate_path_fallback_behavior_witness :
    (virtualToReal cfgA).find? (virtualMatch "/etc/passwd") = none ∧
    validate_path cfgA fsPlain "/etc/passwd" =
      .error (VErr.accessDenied "/etc/passwd") := by
  refine ⟨by rfl, ?_⟩
  have h := validate_path_fallback_behavior cfgA fsPlain "/etc/passwd" (by rfl)
  exact h.trans (by rfl)

/-! ## C3 -/

/-- C3: whenever the normalized candidate canonicalizes (for instance through
a symlink lying inside an allowed directory) to a real path outside every
allowed directory, `validate_path` fails with the access-denied error
carrying that outside path, and in particular never returns it. -/
theorem validate_path_escape_denied (cfg : Config) (fs : FS) (p : String)
    (h : withinAllowed cfg.allowedDirs (fs.realpath (candidatePath cfg p)) = false) :
    validate_path cfg fs p =
      .error (VErr.accessDenied (fs.realpath (candidatePath cfg p))) :=
  validate_path_denied_of_outside cfg fs p h

/-- Witness for C3: `/allowed/link` is a symlink to `/outside/secret`;
resolving `/data/a/link` fails with access denied and does not return the
outside path. -/
theorem validate_path_escape_denied_witness :
    withinAllowed cfgA.allowedDirs (fsLink.realpath (candidatePath cfgA "/data/a/link")) = false ∧
    validate_path cfgA fsLink "/data/a/link" =
      .error (VErr.accessDenied "/outside/secret") := by
  refine ⟨by rfl, ?_⟩
  have h := validate_path_escape_denied cfgA fsLink "/data/a/link" (by rfl)
  exact h.trans (by rfl)

/-! ## C4 -/

/-- C4 counterexample: the string returned to the caller for a denied
symlink escape is
`"Error: Access denied: /outside/secret not in allowed directories"` — it
embeds the real filesystem path `/outside/secret` verbatim, so error strings
are not reclassified through the virtual-path mapping. -/
theorem error_message_contains_real_path :
    read_file_tool cfgA fsLink "/data/a/link" =
      "Error: Access denied: /outside/secret not in allowed directories" ∧
    "/outside/secret".data <:+: (read_file_tool cfgA fsLink "/data/a/link").data :=
  ⟨by rfl, by decide⟩

/-- C4 amended: success results substitute virtual paths, but error messages
do not: whenever the boundary check fails, the string returned to the caller
is `"Error: Access denied: " ++ real ++ " not in allowed directories"`, with
the real (canonicalized) path embedded. -/
theorem read_file_error_embeds_real_path (cfg : Config) (fs : FS) (p : String)
    (h : withinAllowed cfg.allowedDirs (fs.realpath (candidatePath cfg p)) = false) :
    read_file_tool cfg fs p =
      "Error: Access denied: " ++ fs.realpath (candidatePath cfg p) ++
        " not in allowed directories" := by
  unfold read_file_tool
  rw [validate_path_denied_of_outside cfg fs p h]
  rfl

/-- Witness for C4-amended at the symlink-escape configuration. -/
theorem read_file_error_embeds_real_path_witness :
    withinAllowed cfgA.allowedDirs (fsLink.realpath (candidatePath cfgA "/data/a/link")) = false ∧
    read_file_tool cfgA fsLink "/data/a/link" =
      "Error: Access denied: " ++ "/outside/secret" ++ " not in allowed directories" := by
  refine ⟨by rfl, ?_⟩
  have h := read_file_error_embeds_real_path cfgA fsLink "/data/a/link" (by rfl)
  exact h.trans (by rfl)

/-! ## C5 -/

/-- C5: the claim (resolution of a new file succeeds with the
non-canonicalized candidate when the parent exists in bounds, and fails with
`ParentNotFound` when the parent chain is missing) describes the `except
FileNotFoundError` handler of server.py:51-58, but CPython
`os.path.realpath` never raises `FileNotFoundError` in its default
non-strict mode, so that handler is dead code: `validate_path` is always
decided by the boundary check on the canonicalized candidate (first
conjunct), and at the failing input — a new file whose parent
`/allowed/missing` does not exist — validation succeeds instead of failing
with `ParentNotFound` (remaining conjuncts). -/
theorem validate_path_parent_fallback_dead :
    (∀ (cfg : Config) (fs : FS) (p : String),
      validate_path cfg fs p =
        (if withinAllowed cfg.allowedDirs (fs.realpath (candidatePath cfg p))
         then .ok (fs.realpath (candidatePath cfg p))
         else .error (VErr.accessDenied (fs.realpath (candidatePath cfg p))))) ∧
    validate_path cfgA fsMissingParent "/data/a/missing/new.txt" =
      .ok "/allowed/missing/new.txt" ∧
    fsMissingParent.pathExists "/allowed/missing" = false :=
  ⟨validate_path_eq, by rfl, by rfl⟩

/-! ## C6 -/

/-- C6: the claim (and the tool's own description, server.py:264: "If the
destination exists, the operation will fail") says `move_file` fails and
performs no rename when the destination exists.  The handler
(server.py:355-362) calls `os.rename` with no destination check, and POSIX
`os.rename` replaces an existing destination file silently: starting from a
filesystem where `/allowed/d` exists with content `"D"`, the call reports
success and `/allowed/d` now holds the content of `/allowed/s`. -/
theorem move_file_overwrites_existing_destination :
    fsMove.files.lookup "/allowed/d" = some "D" ∧
    (move_file_tool cfgA fsMove "/data/a/s" "/data/a/d").2 =
      "Successfully moved /data/a/s to /data/a/d" ∧
    (move_file_tool cfgA fsMove "/data/a/s" "/data/a/d").1.files.lookup "/allowed/d" =
      some "S" ∧
    (move_file_tool cfgA fsMove "/data/a/s" "/data/a/d").1.files.lookup "/allowed/s" =
      none :=
  ⟨by rfl, by rfl, by rfl, by rfl⟩

/-! ## C7 -/

/-- C7: for every file, edit sequence and diff function, a `dryRun=true` call
of `apply_file_edits_sync` returns the same diff string as the corresponding
real run, and leaves the filesystem (hence the file's on-disk content)
unchanged. -/
theorem apply_file_edits_dry_run_pure
    (udiff : String → String → String → String) (fs : FS) (path : String)
    (edits : List EditOperation) (d1 d2 : String) (fs1 fs2 : FS)
    (h1 : apply_file_edits_sync udiff fs path edits true = some (d1, fs1))
    (h2 : apply_file_edits_sync udiff fs path edits false = some (d2, fs2)) :
    d1 = d2 ∧ fs1 = fs := by
  cases hl : fs.files.lookup path with
  | none =>
    unfold apply_file_edits_sync at h1
    rw [hl] at h1
    cases h1
  | some content =>
    unfold apply_file_edits_sync at h1 h2
    rw [hl] at h1 h2
    have e1 : (udiff content (applyEdits edits content) path,
        if true then fs else writeFile fs path (applyEdits edits content)) = (d1, fs1) :=
      Option.some.inj h1
    have e2 : (udiff content (applyEdits edits content) path,
        if false then fs else writeFile fs path (applyEdits edits content)) = (d2, fs2) :=
      Option.some.inj h2
    constructor
    · exact (congrArg Prod.fst e1).symm.trans (congrArg Prod.fst e2)
    · have hfs : fs = fs1 := congrArg Prod.snd e1
      exact hfs.symm

/-- Witness for C7: editing `"hello"` by `l → L`, the dry run and the real
run produce the same diff string, and the dry run leaves the filesystem as it
was. -/
theorem apply_file_edits_dry_run_pure_witness :
    apply_file_edits_sync (fun a b _ => a ++ "|" ++ b) fsA "/allowed/f" [⟨"l", "L"⟩] true =
      some ("hello|heLLo", fsA) ∧
    apply_file_edits_sync (fun a b _ => a ++ "|" ++ b) fsA "/allowed/f" [⟨"l", "L"⟩] false =
      some ("hello|heLLo", writeFile fsA "/allowed/f" "heLLo") ∧
    ("hello|heLLo" = "hello|heLLo" ∧ fsA = fsA) :=
  ⟨by rfl, by rfl,
    apply_file_edits_dry_run_pure (fun a b _ => a ++ "|" ++ b) fsA "/allowed/f"
      [⟨"l", "L"⟩] "hello|heLLo" "hello|heLLo" fsA (writeFile fsA "/allowed/f" "heLLo")
      (by rfl) (by rfl)⟩

/-! ## C8 -/

/-- C8: edits apply sequentially — each edit's `oldText` is matched against
the content as already modified by the earlier edits, not against the
original (first conjunct) — and an edit whose `oldText` does not occur in
the current content is a silent no-op: the replacement is the identity
(second conjunct) and `apply_file_edits_sync` still succeeds, returning the
diff of whatever changes the remaining edits make (third conjunct). -/
theorem edits_sequential_and_silent_noop :
    (∀ (e : EditOperation) (rest : List EditOperation) (content : String),
      applyEdits (e :: rest) content =
        applyEdits rest (pyReplaceS content e.oldText e.newText)) ∧
    (∀ (content old new : String), ¬ old.data <:+: content.data →
      pyReplaceS content old new = content) ∧
    (∀ (udiff : String → String → String → String) (fs : FS) (path content : String)
      (e : EditOperation) (rest : List EditOperation) (dryRun : Bool),
      fs.files.lookup path = some content → ¬ e.oldText.data <:+: content.data →
      apply_file_edits_sync udiff fs path (e :: rest) dryRun =
        apply_file_edits_sync udiff fs path rest dryRun) := by
  have hnoop : ∀ (content old new : String), ¬ old.data <:+: content.data →
      pyReplaceS content old new = content := by
    intro content old new h
    unfold pyReplaceS
    rw [pyReplace_of_not_occurring content.data old.data new.data h]
  refine ⟨fun e rest content => rfl, hnoop, ?_⟩
  intro udiff fs path content e rest dryRun hl hni
  have happ : applyEdits (e :: rest) content = applyEdits rest content := by
    show applyEdits rest (pyReplaceS content e.oldText e.newText) = applyEdits rest content
    rw [hnoop content e.oldText e.newText hni]
  simp only [apply_file_edits_sync, hl, happ]

/-- Witness for C8: `"zz"` does not occur in `"hello"`, so replacing it is
the identity and prepending that edit to an edit list does not change the
result of `apply_file_edits_sync`. -/
theorem edits_sequential_and_silent_noop_witness :
    (¬ "zz".data <:+: "hello".data) ∧
    pyReplaceS "hello" "zz" "Q" = "hello" ∧
    apply_file_edits_sync (fun a b _ => a ++ "|" ++ b) fsA "/allowed/f" [⟨"zz", "Q"⟩] true =
      apply_file_edits_sync (fun a b _ => a ++ "|" ++ b) fsA "/allowed/f" [] true := by
  have hni : ¬ "zz".data <:+: "hello".data := by decide
  exact ⟨hni, edits_sequential_and_silent_noop.2.1 "hello" "zz" "Q" hni,
    edits_sequential_and_silent_noop.2.2 (fun a b _ => a ++ "|" ++ b) fsA "/allowed/f"
      "hello" ⟨"zz", "Q"⟩ [] true (by rfl) hni⟩

/-! ## C10 -/

/-- C10: `str.replace` (as used at server.py:90) replaces every occurrence in
a single left-to-right pass: a match at the head is replaced and scanning
continues after it (first conjunct), a non-matching head character is kept
and scanning continues (second conjunct); concretely both occurrences of
`"ab"` in `"abXabY"` are replaced at once, and text introduced by an earlier
edit's `newText` (here `x → y`) is itself rewritten by a later edit
(`y → z`) in the same sequence. -/
theorem pyReplace_all_occurrences :
    (∀ (s old new : List Char), old ≠ [] →
      pyReplace (old ++ s) old new = new ++ pyReplace s old new) ∧
    (∀ (c : Char) (cs old new : List Char), old ≠ [] →
      old.isPrefixOf (c :: cs) = false →
      pyReplace (c :: cs) old new = c :: pyReplace cs old new) ∧
    pyReplaceS "abXabY" "ab" "c" = "cXcY" ∧
    applyEdits [⟨"x", "y"⟩, ⟨"y", "z"⟩] "xay" = "zaz" :=
  ⟨fun s old new h => pyReplace_head_match s old new h,
    fun c cs old new h1 h2 => pyReplace_cons_no_match c cs old new h1 h2,
    by rfl, by rfl⟩

/-- Witness for C10 at concrete inputs: a head match on `"abXab"` and a
non-matching head `'X'`. -/
theorem pyReplace_all_occurrences_witness :
    ("ab".data ≠ []) ∧
    pyReplace ("ab".data ++ "Xab".data) "ab".data "c".data =
      "c".data ++ pyReplace "Xab".data "ab".data "c".data ∧
    ("ab".data.isPrefixOf ('X' :: "ab".data) = false) ∧
    pyReplace ('X' :: "ab".data) "ab".data "c".data =
      'X' :: pyReplace "ab".data "ab".data "c".data :=
  ⟨by decide, pyReplace_all_occurrences.1 "Xab".data "ab".data "c".data (by decide),
    by decide, pyReplace_all_occurrences.2.1 'X' "ab".data "ab".data "c".data
      (by decide) (by decide)⟩

/-! ## C9 -/

/-- C9 counterexample: `v = "/data/a/"` resolves successfully (to
`/allowed`, which exists), but converting the resolved real path back yields
`"/data/a"`, not `v` — normalization during resolution makes the round-trip
fail for non-canonical virtual paths. -/
theorem roundtrip_counterexample :
    validate_path cfgA fsPlain "/data/a/" = .ok "/allowed" ∧
    fsPlain.pathExists "/allowed" = true ∧
    convert_to_virtual_path cfgA "/allowed" ≠ "/data/a/" :=
  ⟨by rfl, by rfl, by decide⟩

/-- C9 amended: the round-trip
`convert_to_virtual_path (validate_path v) = v` holds for virtual paths in
canonical form: `v = alias ++ "/" ++ r` where the alias pair is the first
match in both mapping directions, `r` is a nonempty relative part not
starting with `/`, the candidate `d ++ "/" ++ r` is absolute, already
normalized, and canonical (a `realpath` fixpoint), and `d` and the alias
carry no trailing separators.  Each hypothesis is forced by a failure mode
of the unrestricted claim (trailing or duplicated separators, `.`/`..`
segments, symlinked targets, or alias shadowing between overlapping allowed
directories). -/
theorem roundtrip_canonical (cfg : Config) (fs : FS) (valias d r : String)
    (hfind : (virtualToReal cfg).find? (virtualMatch (valias ++ "/" ++ r)) =
      some (valias, d))
    (hrev : (realToVirtual cfg).find? (fun rv =>
        strStartsWith (d ++ "/" ++ r) (rv.1 ++ "/") || (d ++ "/" ++ r) == rv.1) =
      some (d, valias))
    (hr0 : r ≠ "")
    (hrslash : r.data.head? ≠ some '/')
    (hd0 : d ≠ "") (hdslash : strEndsWithSlash d = false)
    (hv0 : valias ≠ "") (hvslash : strEndsWithSlash valias = false)
    (habs : strStartsWith (d ++ "/" ++ r) "/" = true)
    (hnorm : normpath (d ++ "/" ++ r) = d ++ "/" ++ r)
    (hcanon : fs.realpath (d ++ "/" ++ r) = d ++ "/" ++ r) :
    validate_path cfg fs (valias ++ "/" ++ r) = .ok (d ++ "/" ++ r) ∧
    convert_to_virtual_path cfg (d ++ "/" ++ r) = valias ++ "/" ++ r := by
  have hexp : expandRequested cfg (valias ++ "/" ++ r) = d ++ "/" ++ r := by
    unfold expandRequested
    rw [hfind]
    simp only [strip_after_alias valias r hrslash]
    rw [if_neg hr0]
    exact pyJoin_clean d r hd0 hdslash hrslash
  have hcand : candidatePath cfg (valias ++ "/" ++ r) = d ++ "/" ++ r := by
    unfold candidatePath abspath
    rw [hexp, if_pos habs, hnorm, hnorm]
  constructor
  · rw [validate_path_eq, hcand, hcanon,
      if_pos (withinAllowed_descendant cfg.allowedDirs d r
        (find_virtualToReal_mem cfg _ valias d hfind))]
  · unfold convert_to_virtual_path
    rw [hrev]
    simp only [strip_after_alias d r hrslash]
    rw [if_neg hr0]
    exact pyJoin_clean valias r hv0 hvslash hrslash

/-- Witness for C9-amended: for `v = "/data/a/f"` under `cfgA` the
round-trip holds. -/
theorem roundtrip_canonical_witness :
    validate_path cfgA fsPlain ("/data/a" ++ "/" ++ "f") = .ok ("/allowed" ++ "/" ++ "f") ∧
    convert_to_virtual_path cfgA ("/allowed" ++ "/" ++ "f") = "/data/a" ++ "/" ++ "f" :=
  roundtrip_canonical cfgA fsPlain "/data/a" "/allowed" "f"
    (by rfl) (by rfl) (by decide) (by decide) (by decide) (by rfl)
    (by decide) (by rfl) (by rfl) (by rfl) (by rfl)

end Server
